import Mathlib

/-!
Verification of the search-assistant pipeline (engine2.py): a shallow
embedding of the aggregation/fallback pipeline and proofs of its
specified properties.  External HTTP calls and the language model are
modelled as oracles (an `Env` of functions from the request to an
outcome); every embedded function is total, mirroring the source's
catch-all exception handling.
-/

/-- JSON values, as produced by Python's `json` decoding: objects keep
their (insertion-ordered) field list. -/
inductive Json where
  | null : Json
  | bool : Bool → Json
  | num : Int → Json
  | str : String → Json
  | arr : List Json → Json
  | obj : List (String × Json) → Json

/-- Python substring test (`needle in haystack`) on character lists:
does `p` occur at the head of `s`? -/
def charsStartWith : List Char → List Char → Bool
  | [], _ => true
  | _ :: _, [] => false
  | c :: p, d :: s => c == d && charsStartWith p s

/-- Python substring test (`needle in haystack`) on character lists. -/
def charsContain (p : List Char) : List Char → Bool
  | [] => p.isEmpty
  | d :: s => charsStartWith p (d :: s) || charsContain p s

/-- Python `needle in haystack` for strings. -/
def strContains (hay needle : String) : Bool :=
  charsContain needle.data hay.data

/-- Python `s.startswith(p)`. -/
def strStarts (s p : String) : Bool :=
  charsStartWith p.data s.data

/-- A character Python's `str.strip` removes. -/
def pyIsSpace (c : Char) : Bool :=
  c == ' ' || c == '\t' || c == '\n' || c == '\r' || c == '\x0b' || c == '\x0c'

/-- Python `s.strip()`: whitespace removed from both ends. -/
def pyStrip (s : String) : String :=
  String.mk (((s.data.dropWhile pyIsSpace).reverse.dropWhile pyIsSpace).reverse)

/-- Python `dict.get(k, d)` over a decoded JSON object's field list. -/
def lookupD (fs : List (String × Json)) (k : String) (d : Json) : Json :=
  match fs.find? (fun kv => kv.1 == k) with
  | some kv => kv.2
  | none => d

/-- Whether a JSON object's field list carries key `k` (Python `k in dict`). -/
def hasKey (fs : List (String × Json)) (k : String) : Bool :=
  (fs.find? (fun kv => kv.1 == k)).isSome

/-- Python `==` between a JSON value and a string (used by `in` on lists):
true only for the equal string. -/
def Json.eqStr : Json → String → Bool
  | .str s, k => s == k
  | _, _ => false

/-- Python truthiness of a decoded JSON value (`bool(x)`). -/
def Json.truthy : Json → Bool
  | .null => false
  | .bool b => b
  | .num n => n != 0
  | .str s => !s.isEmpty
  | .arr xs => !xs.isEmpty
  | .obj fs => !fs.isEmpty

/-- Python `x[k]` on a decoded JSON value: `KeyError` on a missing key,
`TypeError` when `x` is not an object (string indexing and list indexing
take non-string keys, which never arise here). -/
def pyGetItem (j : Json) (k : String) : Except String Json :=
  match j with
  | .obj fs =>
    match fs.find? (fun kv => kv.1 == k) with
    | some kv => .ok kv.2
    | none => .error ("KeyError: " ++ k)
  | _ => .error "TypeError: value is not subscriptable by string"

/-- Python `x.get(k, d)`: `AttributeError` when `x` is not a dict. -/
def pyDictGet (j : Json) (k : String) (d : Json) : Except String Json :=
  match j with
  | .obj fs => .ok (lookupD fs k d)
  | _ => .error "AttributeError: value has no attribute get"

/-- Python `k in x` for a string key: key lookup on dicts, membership on
lists, substring on strings, `TypeError` otherwise. -/
def pyContains (j : Json) (k : String) : Except String Bool :=
  match j with
  | .obj fs => .ok (hasKey fs k)
  | .arr xs => .ok (xs.any (fun x => Json.eqStr x k))
  | .str s => .ok (strContains s k)
  | _ => .error "TypeError: argument is not iterable"

/-- JSON string escaping as `json.dumps` performs it for the characters
that matter here. -/
def escapeChar (c : Char) : String :=
  if c == '"' then "\\\""
  else if c == '\\' then "\\\\"
  else if c == '\n' then "\\n"
  else if c == '\t' then "\\t"
  else if c == '\r' then "\\r"
  else String.mk [c]

/-- A JSON string literal: quoted and escaped. -/
def escapeStr (s : String) : String :=
  "\"" ++ String.join (s.data.map escapeChar) ++ "\""

/-- `indent * lvl` spaces, the `indent=2` layout of `json.dumps`. -/
def jsonPad (lvl : Nat) : String :=
  String.mk (List.replicate (2 * lvl) ' ')

mutual

/-- `json.dumps(·, indent=2)` of a value nested at `lvl`. -/
def Json.dumpsAt : Nat → Json → String
  | _, .null => "null"
  | _, .bool true => "true"
  | _, .bool false => "false"
  | _, .num n => toString n
  | _, .str s => escapeStr s
  | _, .arr [] => "[]"
  | lvl, .arr (x :: xs) => "[\n" ++ Json.dumpsItems lvl (x :: xs) ++ "\n" ++ jsonPad lvl ++ "]"
  | _, .obj [] => "\x7b\x7d"
  | lvl, .obj (f :: fs) => "\x7b\n" ++ Json.dumpsFields lvl (f :: fs) ++ "\n" ++ jsonPad lvl ++ "\x7d"

/-- The comma-and-newline separated items of an array at nesting `lvl`. -/
def Json.dumpsItems : Nat → List Json → String
  | _, [] => ""
  | lvl, [x] => jsonPad (lvl + 1) ++ Json.dumpsAt (lvl + 1) x
  | lvl, x :: y :: xs =>
    jsonPad (lvl + 1) ++ Json.dumpsAt (lvl + 1) x ++ ",\n" ++ Json.dumpsItems lvl (y :: xs)

/-- The comma-and-newline separated fields of an object at nesting `lvl`. -/
def Json.dumpsFields : Nat → List (String × Json) → String
  | _, [] => ""
  | lvl, [(k, v)] => jsonPad (lvl + 1) ++ escapeStr k ++ ": " ++ Json.dumpsAt (lvl + 1) v
  | lvl, (k, v) :: g :: fs =>
    jsonPad (lvl + 1) ++ escapeStr k ++ ": " ++ Json.dumpsAt (lvl + 1) v ++ ",\n" ++
      Json.dumpsFields lvl (g :: fs)

end

/-- `json.dumps(j, indent=2)`. -/
def Json.dumps (j : Json) : String :=
  Json.dumpsAt 0 j

/-- One candidate result block selected by `soup.select('div.g, ...')` in
`search_google`, abstracted to the three extractions the loop performs:
`heading` is the text of `select_one('h3, [role="heading"]')` when that
element exists; `anchorHref` is `none` when `find('a')` yields nothing,
`some none` when the anchor lacks an `href` attribute, and
`some (some u)` otherwise; `snip` is the text of the first matching
snippet element, when any. -/
structure Block where
  heading : Option String
  anchorHref : Option (Option String)
  snip : Option String

/-- The response of the search engine's HTML endpoint: the body text
(checked for block indicators) and the candidate result blocks the
parser selects from it. -/
structure GooglePage where
  text : String
  blocks : List Block

/-- The external world as `engine2.py` observes it: each oracle maps the
request (query string, or the prompt for the model) to the decoded
response or to the exception the corresponding Python call raises. -/
structure Env where
  googleWorld : String → Except String GooglePage
  duckWorld : String → Except String Json
  wikiWorld : String → Except String Json
  ollamaWorld : String → Except String String

/-- `search_wikipedia`: the decoded response on success, an object with
only an `error` field on any failure. -/
def search_wikipedia (world : String → Except String Json) (query : String) : Json :=
  match world query with
  | .ok j => j
  | .error e => Json.obj [("error", Json.str e)]

/-- `search_duckduckgo`: normalizes the decoded payload into a
single-element list via `data.get(...)` with empty-string defaults;
any exception (transport, decode, or `.get` on a non-dict payload)
yields the empty list. -/
def search_duckduckgo (world : String → Except String Json) (query : String) : List Json :=
  match world query with
  | .error _ => []
  | .ok (Json.obj fields) =>
    [Json.obj [("title", lookupD fields "Heading" (Json.str "")),
               ("url", lookupD fields "AbstractURL" (Json.str "")),
               ("snippet", lookupD fields "AbstractText" (Json.str "")),
               ("source", Json.str "duckduckgo")]]
  | .ok _ => []

/-- The block-indicator phrases of `search_google`'s CAPTCHA check. -/
def blockPhrases : List String :=
  ["CAPTCHA", "unusual traffic", "automated requests"]

/-- Whether the response body trips the CAPTCHA check
(`any(phrase in response.text for phrase in ...)`). -/
def isBlockedText (t : String) : Bool :=
  blockPhrases.any (fun p => strContains t p)

/-- The per-block body of `search_google`'s extraction loop: `none` when
the block is skipped (a missing heading or anchor raises and is caught;
an internal `/search?` or `/url?` destination is filtered), otherwise
the normalized result record. -/
def extractBlock (b : Block) : Option Json :=
  match b.heading, b.anchorHref with
  | some t, some (some u) =>
    let snippetText := match b.snip with
      | some s => s
      | none => ""
    if strStarts u "/search?" || strStarts u "/url?" then none
    else some (Json.obj [("title", Json.str (pyStrip t)),
                         ("url", Json.str u),
                         ("snippet", Json.str (pyStrip snippetText)),
                         ("source", Json.str "google")])
  | _, _ => none

/-- `search_google`, instrumented with the number of candidate blocks the
extraction loop examines: `([], 0)` on transport failure and on a
detected block indicator (the loop is never entered), otherwise the
extracted records together with the number of selected blocks. -/
def search_google_trace (world : String → Except String GooglePage) (query : String) :
    List Json × Nat :=
  match world query with
  | .error _ => ([], 0)
  | .ok page =>
    if isBlockedText page.text then ([], 0)
    else (page.blocks.filterMap extractBlock, page.blocks.length)

/-- `search_google`: the list of normalized result records. -/
def search_google (world : String → Except String GooglePage) (query : String) : List Json :=
  (search_google_trace world query).1

/-- The `sources` sub-dict of the composite built by `combine_results`. -/
structure Sources where
  google : List Json
  wikipedia : Json
  fallback : List Json

/-- The composite structure `combine_results` returns. -/
structure Combined where
  query : String
  sources : Sources

/-- The composite as `json.dumps` sees it: the fixed key layout
`query`, `sources.google`, `sources.wikipedia`, `sources.fallback`. -/
def Combined.toJson (c : Combined) : Json :=
  Json.obj [("query", Json.str c.query),
            ("sources", Json.obj [("google", Json.arr c.sources.google),
                                  ("wikipedia", c.sources.wikipedia),
                                  ("fallback", Json.arr c.sources.fallback)])]

/-- The wiki section of `combine_results`'s `try` block: given
`wiki_data`, either the new value assigned to `sources.wikipedia`
(`some` when `"query" in wiki_data`, `none` when the key test is false
and nothing is assigned), or the exception message when any of the
subscripts or `.get` calls raises. -/
def wikiExtract (wiki_data : Json) : Except String (Option Json) :=
  match pyContains wiki_data "query" with
  | .error e => .error e
  | .ok false => .ok none
  | .ok true =>
    match pyGetItem wiki_data "query" with
    | .error e => .error e
    | .ok qv =>
      match pyGetItem qv "search" with
      | .error e => .error e
      | .ok sv =>
        match pyDictGet qv "searchinfo" (Json.obj []) with
        | .error e => .error e
        | .ok si =>
          match pyDictGet si "suggestion" Json.null with
          | .error e => .error e
          | .ok sug => .ok (some (Json.obj [("results", sv), ("suggestion", sug)]))

/-- The `if use_google:` section of `combine_results`'s `try` block,
starting from the freshly built empty composite: the primary client
runs first; exactly when its list is empty (`if not google_results`)
the fallback client is invoked once and its output assigned to
`fallback`, otherwise the primary output is assigned to `google`.  The
second component counts the fallback invocations. -/
def googleSection (query : String) (use_google : Bool) (env : Env) : Sources × Nat :=
  if use_google then
    let google_results := search_google env.googleWorld query
    if google_results.isEmpty then
      (⟨[], Json.obj [], search_duckduckgo env.duckWorld query⟩, 1)
    else
      (⟨google_results, Json.obj [], []⟩, 0)
  else (⟨[], Json.obj [], []⟩, 0)

/-- The `if use_wiki:` section of `combine_results`'s `try` block,
acting on the sources assembled so far: when the response carries a
`query` key, `sources.wikipedia` is assigned the extracted
results/suggestion object; when the key test is false nothing is
assigned; when any subscript raises, the surrounding `try` catches it
and `combine_results` returns the composite as assembled so far (the
assignment never happened). -/
def wikiSection (query : String) (use_wiki : Bool) (env : Env) (s1 : Sources) : Sources :=
  if use_wiki then
    match wikiExtract (search_wikipedia env.wikiWorld query) with
    | .ok (some wv) => ⟨s1.google, wv, s1.fallback⟩
    | .ok none => s1
    | .error _ => s1
  else s1

/-- `combine_results`, instrumented with the number of times
`search_duckduckgo` is invoked: the google section runs first, then the
wiki section, and the composite is returned in all cases. -/
def combine_results_trace (query : String) (use_google use_wiki : Bool) (env : Env) :
    Combined × Nat :=
  let gstep := googleSection query use_google env
  (⟨query, wikiSection query use_wiki env gstep.1⟩, gstep.2)

/-- `combine_results`: the composite structure. -/
def combine_results (query : String) (use_google use_wiki : Bool) (env : Env) : Combined :=
  (combine_results_trace query use_google use_wiki env).1

/-- How many times `combine_results` invokes the fallback client. -/
def duckCalls (query : String) (use_google use_wiki : Bool) (env : Env) : Nat :=
  (combine_results_trace query use_google use_wiki env).2

/-- The fixed zero-evidence message of `generate_answer`. -/
def noResultsMsg : String :=
  "No search results found. Try rephrasing your question or check your network connection."

/-- Python `any(combined["sources"].values())`: the three values are the
google list, the wikipedia mapping and the fallback list, in insertion
order. -/
def sourcesAny (s : Sources) : Bool :=
  !s.google.isEmpty || s.wikipedia.truthy || !s.fallback.isEmpty

/-- The instructional prompt template of `generate_answer` (the
triple-quoted f-string, with its literal indentation). -/
def buildPrompt (query context : String) : String :=
  "Analyze available information and answer:\n    Query: " ++ query ++
  "\n    Available Context: " ++ context ++
  "\n    \n    If information is conflicting:\n    - Prioritize official sources\n" ++
  "    - Note disagreements in the answer\n    - Maintain neutral tone\n    \n" ++
  "    Structure your answer with:\n    1. Key points\n" ++
  "    2. Step-by-step instructions (if applicable)\n    3. Common mistakes to avoid"

/-- `generate_answer`, instrumented with the number of language-model
invocations: the zero-evidence short-circuit returns the fixed message
with no model call; otherwise the model is called once on the built
prompt, and any exception is converted into an error-describing
string. -/
def generate_answer_trace (query : String) (combined_results : Combined) (env : Env) :
    String × Nat :=
  let context := Json.dumps combined_results.toJson
  if !sourcesAny combined_results.sources then
    (noResultsMsg, 0)
  else
    let prompt := buildPrompt query context
    match env.ollamaWorld prompt with
    | .ok content => (content, 1)
    | .error e => ("Error generating answer: " ++ e, 1)

/-- `generate_answer`: the answer string. -/
def generate_answer (query : String) (combined_results : Combined) (env : Env) : String :=
  (generate_answer_trace query combined_results env).1

/-- How many times `generate_answer` invokes the language model. -/
def ollamaCalls (query : String) (combined_results : Combined) (env : Env) : Nat :=
  (generate_answer_trace query combined_results env).2

/-- `full_pipeline`: combine, synthesize, and return the (answer,
pretty-printed JSON evidence) pair.  The embedded stages are total (each
converts its exceptions internally), so the `except` arm of the source,
which would return `("Pipeline error: ...", json.dumps of an error
object)`, is unreachable here. -/
def full_pipeline (query : String) (use_google use_wiki : Bool) (env : Env) :
    String × String :=
  let results := combine_results query use_google use_wiki env
  let answer := generate_answer query results env
  (answer, Json.dumps results.toJson)

/-- Whether the extraction of a block's title or URL raises in
`search_google`'s loop: the title lookup raises (`AttributeError` on
`.text`) when no heading element exists, and the URL lookup raises
(`TypeError` or `KeyError`) when no anchor exists or the anchor lacks
an `href`. -/
def blockRaises (b : Block) : Bool :=
  match b.heading, b.anchorHref with
  | some _, some (some _) => false
  | _, _ => true

/-- An environment in which every external call fails. -/
def envAllDown : Env :=
  ⟨fun _ => Except.error "connection refused", fun _ => Except.error "connection refused",
   fun _ => Except.error "connection refused", fun _ => Except.error "connection refused"⟩

/-- A search-engine page with a single well-formed result block. -/
def oneHitPage : GooglePage :=
  ⟨"ordinary results page", [⟨some "Lean", some (some "https://lean-lang.org"), some "a theorem prover"⟩]⟩

/-- An environment in which the primary search yields one result. -/
def envOneHit : Env :=
  ⟨fun _ => Except.ok oneHitPage, fun _ => Except.error "unused",
   fun _ => Except.error "unused", fun _ => Except.ok "model answer"⟩

/-- An environment in which the Wikipedia response has a `query` field
whose value is not subscriptable, so the wiki extraction raises
mid-aggregation. -/
def envWikiBadShape : Env :=
  ⟨fun _ => Except.error "down", fun _ => Except.error "down",
   fun _ => Except.ok (Json.obj [("query", Json.num 3)]), fun _ => Except.ok "model answer"⟩

/-- An environment in which the Wikipedia API succeeds with an empty
search-hit list. -/
def envWikiEmptyHits : Env :=
  ⟨fun _ => Except.error "down", fun _ => Except.error "down",
   fun _ => Except.ok (Json.obj [("query", Json.obj [("search", Json.arr [])])]),
   fun _ => Except.ok "model answer"⟩

/-- The wiki section never touches the `google` field. -/
theorem wikiSection_google (q : String) (w : Bool) (env : Env) (s : Sources) :
    (wikiSection q w env s).google = s.google := by
  unfold wikiSection
  split
  · split <;> rfl
  · rfl

/-- The wiki section never touches the `fallback` field. -/
theorem wikiSection_fallback (q : String) (w : Bool) (env : Env) (s : Sources) :
    (wikiSection q w env s).fallback = s.fallback := by
  unfold wikiSection
  split
  · split <;> rfl
  · rfl

/-- The google section leaves `wikipedia` at its initial empty mapping. -/
theorem googleSection_wikipedia (q : String) (g : Bool) (env : Env) :
    (googleSection q g env).1.wikipedia = Json.obj [] := by
  unfold googleSection
  split
  · dsimp only
    split <;> rfl
  · rfl

/-- A block whose extraction raises contributes nothing. -/
theorem extractBlock_none_of_raises (b : Block) (h : blockRaises b = true) :
    extractBlock b = none := by
  obtain ⟨hd, ah, sn⟩ := b
  match hd, ah with
  | none, none => rfl
  | none, some none => rfl
  | none, some (some u) => rfl
  | some t, none => rfl
  | some t, some none => rfl
  | some t, some (some u) => exact absurd h (by simp [blockRaises])

/-- The synthesizer calls the model once exactly when some source is
truthy. -/
theorem ollamaCalls_eq (q : String) (c : Combined) (env : Env) :
    ollamaCalls q c env = if sourcesAny c.sources then 1 else 0 := by
  unfold ollamaCalls generate_answer_trace
  dsimp only
  cases hs : sourcesAny c.sources
  · simp [hs]
  · simp only [hs, Bool.not_true, Bool.false_eq_true, if_false]
    split <;> rfl

/-- With `wikipedia` an object, `any(sources.values())` is false exactly
when both lists and the object's field list are empty. -/
theorem sourcesAny_false_iff (s : Sources) (fs : List (String × Json))
    (hfs : s.wikipedia = Json.obj fs) :
    (sourcesAny s = false) ↔ (s.google = [] ∧ s.fallback = [] ∧ fs = []) := by
  unfold sourcesAny
  rw [hfs]
  cases s.google <;> cases s.fallback <;> cases fs <;> simp [Json.truthy]

/-- C1: for every query and every pair of toggles, `full_pipeline`
returns a pair of strings whose second component is the `json.dumps`
serialization of a JSON value (hence parses as JSON), whatever the
environment does — in particular when every external call fails; the
embedded pipeline is total, so the caller observes no exception. -/
theorem full_pipeline_answer_and_json (q : String) (g w : Bool) (env : Env) :
    ∃ j : Json, full_pipeline q g w env =
      (generate_answer q (combine_results q g w env) env, Json.dumps j) :=
  ⟨(combine_results q g w env).toJson, rfl⟩

/-- C2's counterexample: when the secondary API succeeds with a payload
carrying none of Heading/AbstractURL/AbstractText (here the empty
object), `search_duckduckgo` returns a single-element list of
empty-string fields, not the empty list the claim requires. -/
theorem search_duckduckgo_empty_payload_not_empty_list :
    search_duckduckgo (fun _ => Except.ok (Json.obj [])) "capital of France" =
      [Json.obj [("title", Json.str ""), ("url", Json.str ""), ("snippet", Json.str ""),
                 ("source", Json.str "duckduckgo")]] ∧
    (search_duckduckgo (fun _ => Except.ok (Json.obj [])) "capital of France").length = 1 :=
  ⟨rfl, rfl⟩

/-- C2 (amended): `search_duckduckgo` returns either a single-element
list whose element has exactly the fields title, url, snippet and
source "duckduckgo", or the empty list; the single-element list is
returned on every successfully decoded JSON-object payload (with
empty-string defaults when Heading/AbstractURL/AbstractText are
absent), and the empty list on any error or non-object payload. -/
theorem search_duckduckgo_single_or_empty (world : String → Except String Json) (q : String) :
    (search_duckduckgo world q).length ≤ 1 ∧
    (∀ fields, world q = Except.ok (Json.obj fields) →
      search_duckduckgo world q =
        [Json.obj [("title", lookupD fields "Heading" (Json.str "")),
                   ("url", lookupD fields "AbstractURL" (Json.str "")),
                   ("snippet", lookupD fields "AbstractText" (Json.str "")),
                   ("source", Json.str "duckduckgo")]]) ∧
    ((∀ fields, world q ≠ Except.ok (Json.obj fields)) → search_duckduckgo world q = []) := by
  unfold search_duckduckgo
  cases h : world q with
  | error e => exact ⟨by simp, fun fields hf => by simp_all, fun _ => rfl⟩
  | ok j =>
    cases j with
    | obj fields =>
      refine ⟨by simp, fun fields2 hf => ?_, fun hno => absurd rfl (hno fields)⟩
      injection hf with hf2
      injection hf2 with hf3
      simp [hf3]
    | null => exact ⟨by simp, fun fields hf => by simp_all, fun _ => rfl⟩
    | bool b => exact ⟨by simp, fun fields hf => by simp_all, fun _ => rfl⟩
    | num n => exact ⟨by simp, fun fields hf => by simp_all, fun _ => rfl⟩
    | str s => exact ⟨by simp, fun fields hf => by simp_all, fun _ => rfl⟩
    | arr xs => exact ⟨by simp, fun fields hf => by simp_all, fun _ => rfl⟩

/-- Witness for C2's amended theorem: a decoded object payload with only
a Heading yields the single-element record with defaults; a failing
call yields the empty list. -/
theorem search_duckduckgo_single_or_empty_witness :
    ((fun _ : String => (Except.ok (Json.obj [("Heading", Json.str "Lean")]) : Except String Json)) "lean" =
       Except.ok (Json.obj [("Heading", Json.str "Lean")]) ∧
     search_duckduckgo (fun _ => Except.ok (Json.obj [("Heading", Json.str "Lean")])) "lean" =
       [Json.obj [("title", Json.str "Lean"), ("url", Json.str ""), ("snippet", Json.str ""),
                  ("source", Json.str "duckduckgo")]]) ∧
    search_duckduckgo (fun _ => Except.error "name resolution failed") "lean" = [] :=
  ⟨⟨rfl, (search_duckduckgo_single_or_empty
            (fun _ => Except.ok (Json.obj [("Heading", Json.str "Lean")])) "lean").2.1
          [("Heading", Json.str "Lean")] rfl⟩,
   (search_duckduckgo_single_or_empty (fun _ => Except.error "name resolution failed") "lean").2.2
     (fun _ h => Except.noConfusion h)⟩

/-- C3: with the web-search toggle enabled, if the primary client
returns the empty list the fallback client is invoked exactly once and
its output is stored under `sources.fallback` while `sources.google`
stays empty; if the primary client returns a non-empty list the
fallback client is never invoked and the primary output is stored
under `sources.google`. -/
theorem combine_results_fallback_chain (q : String) (w : Bool) (env : Env) :
    (search_google env.googleWorld q = [] →
      duckCalls q true w env = 1 ∧
      (combine_results q true w env).sources.fallback = search_duckduckgo env.duckWorld q ∧
      (combine_results q true w env).sources.google = []) ∧
    (search_google env.googleWorld q ≠ [] →
      duckCalls q true w env = 0 ∧
      (combine_results q true w env).sources.google = search_google env.googleWorld q ∧
      (combine_results q true w env).sources.fallback = []) := by
  constructor
  · intro hg
    unfold duckCalls combine_results combine_results_trace
    dsimp only
    rw [wikiSection_fallback, wikiSection_google]
    unfold googleSection
    simp [hg]
  · intro hg
    have hne : (search_google env.googleWorld q).isEmpty = false := by
      cases hsg : search_google env.googleWorld q with
      | nil => exact absurd hsg hg
      | cons a l => rfl
    unfold duckCalls combine_results combine_results_trace
    dsimp only
    rw [wikiSection_fallback, wikiSection_google]
    unfold googleSection
    simp [hne]

/-- Witness for C3: with every call failing the primary list is empty
and the fallback fires once; with one good result block the fallback
never fires. -/
theorem combine_results_fallback_chain_witness :
    (search_google envAllDown.googleWorld "q" = [] ∧ duckCalls "q" true false envAllDown = 1 ∧
     (combine_results "q" true false envAllDown).sources.google = []) ∧
    (search_google envOneHit.googleWorld "q" ≠ [] ∧ duckCalls "q" true false envOneHit = 0) :=
  ⟨⟨rfl, ((combine_results_fallback_chain "q" false envAllDown).1 rfl).1,
    ((combine_results_fallback_chain "q" false envAllDown).1 rfl).2.2⟩,
   ⟨fun h => List.noConfusion h,
    ((combine_results_fallback_chain "q" false envOneHit).2 (fun h => List.noConfusion h)).1⟩⟩

/-- C4: in every environment and for every pair of toggles, at most one
of `sources.google` and `sources.fallback` is non-empty. -/
theorem combine_results_at_most_one (q : String) (g w : Bool) (env : Env) :
    (combine_results q g w env).sources.google = [] ∨
    (combine_results q g w env).sources.fallback = [] := by
  unfold combine_results combine_results_trace
  dsimp only
  rw [wikiSection_google, wikiSection_fallback]
  unfold googleSection
  split
  · dsimp only
    split
    · left; rfl
    · right; rfl
  · left; rfl

/-- C5: with both toggles false the aggregate has all three source
fields empty, and the synthesizer short-circuits with the fixed
no-results message, never invoking the language model. -/
theorem combine_results_toggles_off (q : String) (env : Env) :
    combine_results q false false env = ⟨q, ⟨[], Json.obj [], []⟩⟩ ∧
    generate_answer_trace q (combine_results q false false env) env = (noResultsMsg, 0) :=
  ⟨rfl, rfl⟩

/-- C6: when the response body contains a block-indicator phrase, the
primary client returns the empty list at once, examining none of the
candidate result blocks. -/
theorem search_google_blocked_aborts (world : String → Except String GooglePage)
    (q : String) (page : GooglePage)
    (hw : world q = Except.ok page)
    (hb : isBlockedText page.text = true) :
    search_google_trace world q = ([], 0) := by
  unfold search_google_trace
  rw [hw]
  simp [hb]

/-- Witness for C6: a page whose body mentions unusual traffic yields
the empty list with zero blocks examined. -/
theorem search_google_blocked_aborts_witness :
    isBlockedText "Our systems have detected unusual traffic from your network" = true ∧
    search_google_trace
      (fun _ => Except.ok ⟨"Our systems have detected unusual traffic from your network",
        [⟨some "Lean", some (some "https://lean-lang.org"), none⟩]⟩) "q" = ([], 0) :=
  ⟨rfl, search_google_blocked_aborts _ "q"
    ⟨"Our systems have detected unusual traffic from your network",
      [⟨some "Lean", some (some "https://lean-lang.org"), none⟩]⟩ rfl rfl⟩

/-- C7: a block whose title or URL extraction raises is skipped: it
contributes no entry, the remaining blocks are processed exactly as if
the block were absent, and no error escapes `search_google`. -/
theorem search_google_skips_bad_block (world : String → Except String GooglePage)
    (q text : String) (pre post : List Block) (b : Block)
    (hw : world q = Except.ok ⟨text, pre ++ b :: post⟩)
    (hb : blockRaises b = true) :
    search_google world q = search_google (fun _ => Except.ok ⟨text, pre ++ post⟩) q := by
  have hnone : extractBlock b = none := extractBlock_none_of_raises b hb
  unfold search_google search_google_trace
  rw [hw]
  dsimp only
  split
  · rfl
  · dsimp only
    rw [List.filterMap_append, List.filterMap_append, List.filterMap_cons_none hnone]

/-- Witness for C7: a titleless middle block is skipped and the
surrounding blocks are both extracted. -/
theorem search_google_skips_bad_block_witness :
    blockRaises ⟨none, some (some "https://b.example"), none⟩ = true ∧
    search_google (fun _ => Except.ok ⟨"ordinary page",
        [⟨some "A", some (some "https://a.example"), none⟩,
         ⟨none, some (some "https://b.example"), none⟩,
         ⟨some "C", some (some "https://c.example"), none⟩]⟩) "q" =
      search_google (fun _ => Except.ok ⟨"ordinary page",
        [⟨some "A", some (some "https://a.example"), none⟩,
         ⟨some "C", some (some "https://c.example"), none⟩]⟩) "q" :=
  ⟨rfl, search_google_skips_bad_block _ "q" "ordinary page"
    [⟨some "A", some (some "https://a.example"), none⟩]
    [⟨some "C", some (some "https://c.example"), none⟩]
    ⟨none, some (some "https://b.example"), none⟩ rfl rfl⟩

/-- C8: when the Wikipedia client's response is a mapping with an
`error` field and no `query` field, the composite's `wikipedia` field
is the empty mapping, not the error value. -/
theorem combine_results_wiki_error_not_surfaced (q : String) (g : Bool) (env : Env)
    (fs : List (String × Json))
    (h1 : search_wikipedia env.wikiWorld q = Json.obj fs)
    (h2 : hasKey fs "query" = false)
    (_h3 : hasKey fs "error" = true) :
    (combine_results q g true env).sources.wikipedia = Json.obj [] := by
  have hwe : wikiExtract (Json.obj fs) = Except.ok none := by
    unfold wikiExtract
    simp [pyContains, h2]
  unfold combine_results combine_results_trace wikiSection
  dsimp only
  rw [h1, hwe]
  exact googleSection_wikipedia q g env

/-- Witness for C8: a failing Wikipedia call produces an error mapping
and the composite's `wikipedia` field stays empty. -/
theorem combine_results_wiki_error_not_surfaced_witness :
    search_wikipedia envAllDown.wikiWorld "q" = Json.obj [("error", Json.str "connection refused")] ∧
    hasKey [("error", Json.str "connection refused")] "query" = false ∧
    hasKey [("error", Json.str "connection refused")] "error" = true ∧
    (combine_results "q" false true envAllDown).sources.wikipedia = Json.obj [] :=
  ⟨rfl, rfl, rfl,
   combine_results_wiki_error_not_surfaced "q" false envAllDown
     [("error", Json.str "connection refused")] rfl rfl rfl⟩

/-- C9: `combine_results` always returns the composite with the fixed
shape (query plus the google/wikipedia/fallback sources) and the query
field equal to the input; when the wiki extraction raises
mid-aggregation, the result equals the composite as assembled before
the wiki section (the run with the wiki toggle off). -/
theorem combine_results_shape_total (q : String) (g w : Bool) (env : Env) :
    (combine_results q g w env).query = q ∧
    (∃ gl wk fb, (combine_results q g w env).toJson =
      Json.obj [("query", Json.str q),
                ("sources", Json.obj [("google", Json.arr gl), ("wikipedia", wk),
                                      ("fallback", Json.arr fb)])]) ∧
    (∀ e, wikiExtract (search_wikipedia env.wikiWorld q) = Except.error e →
      combine_results q g true env = combine_results q g false env) := by
  refine ⟨rfl, ⟨_, _, _, rfl⟩, fun e he => ?_⟩
  unfold combine_results combine_results_trace wikiSection
  dsimp only
  rw [he]
  exact rfl

/-- Witness for C9: a `query` field that is not subscriptable makes the
wiki extraction raise, and the composite equals the wiki-off run. -/
theorem combine_results_shape_total_witness :
    wikiExtract (search_wikipedia envWikiBadShape.wikiWorld "q") =
      Except.error "TypeError: value is not subscriptable by string" ∧
    combine_results "q" false true envWikiBadShape = combine_results "q" false false envWikiBadShape :=
  ⟨rfl, (combine_results_shape_total "q" false false envWikiBadShape).2.2 _ rfl⟩

/-- C10: the zero-evidence short-circuit fires exactly when
`sources.google` and `sources.fallback` are empty lists and
`sources.wikipedia` is a mapping with no keys (and then the answer is
the fixed message); and when the Wikipedia API succeeds with an empty
search-hit list, `combine_results` stores the non-empty mapping of
empty results and null suggestion, so the model is invoked despite the
zero textual evidence. -/
theorem generate_answer_short_circuit_exactly (q : String) (env : Env) :
    (∀ (c : Combined) (fs : List (String × Json)), c.sources.wikipedia = Json.obj fs →
      ((ollamaCalls q c env = 0 ↔
        c.sources.google = [] ∧ c.sources.fallback = [] ∧ fs = []) ∧
       (ollamaCalls q c env = 0 → generate_answer q c env = noResultsMsg))) ∧
    (env.wikiWorld q = Except.ok (Json.obj [("query", Json.obj [("search", Json.arr [])])]) →
      (combine_results q false true env).sources.wikipedia =
        Json.obj [("results", Json.arr []), ("suggestion", Json.null)] ∧
      ollamaCalls q (combine_results q false true env) env = 1) := by
  constructor
  · intro c fs hfs
    rw [ollamaCalls_eq]
    constructor
    · rw [← sourcesAny_false_iff c.sources fs hfs]
      cases hs : sourcesAny c.sources <;> simp
    · intro h0
      have hs : sourcesAny c.sources = false := by
        cases hs : sourcesAny c.sources
        · rfl
        · rw [hs] at h0; simp at h0
      unfold generate_answer generate_answer_trace
      simp [hs]
  · intro h
    have hc : combine_results q false true env =
        ⟨q, ⟨[], Json.obj [("results", Json.arr []), ("suggestion", Json.null)], []⟩⟩ := by
      unfold combine_results combine_results_trace wikiSection search_wikipedia
      rw [h]
      exact rfl
    rw [hc, ollamaCalls_eq]
    exact ⟨rfl, rfl⟩

/-- Witness for C10: the empty composite short-circuits to the fixed
message, while a successful empty-hit Wikipedia response leaves a
truthy mapping and the model is invoked once. -/
theorem generate_answer_short_circuit_exactly_witness :
    (ollamaCalls "q" ⟨"q", ⟨[], Json.obj [], []⟩⟩ envWikiEmptyHits = 0 ∧
     generate_answer "q" ⟨"q", ⟨[], Json.obj [], []⟩⟩ envWikiEmptyHits = noResultsMsg) ∧
    ((combine_results "q" false true envWikiEmptyHits).sources.wikipedia =
       Json.obj [("results", Json.arr []), ("suggestion", Json.null)] ∧
     ollamaCalls "q" (combine_results "q" false true envWikiEmptyHits) envWikiEmptyHits = 1) := by
  have h := generate_answer_short_circuit_exactly "q" envWikiEmptyHits
  have hzero : ollamaCalls "q" ⟨"q", ⟨[], Json.obj [], []⟩⟩ envWikiEmptyHits = 0 :=
    ((h.1 ⟨"q", ⟨[], Json.obj [], []⟩⟩ [] rfl).1).mpr ⟨rfl, rfl, rfl⟩
  exact ⟨⟨hzero, (h.1 ⟨"q", ⟨[], Json.obj [], []⟩⟩ [] rfl).2 hzero⟩, h.2 rfl⟩
